import Mathlib

/-!
Verification of the fuel-route planning pipeline (`route_api`): a shallow
embedding of `utils.py` (geocoding with cache and USA-boundary validation,
routing with haversine fallback, corridor filtering by state adjacency) and
`views.py` (geometry simplification and the fuel-stop planner inlined in
`calculate_route`), together with theorems settling the frozen claims.

Coordinates and prices are embedded as rationals (Python floats carry exact
decimal literals in every scenario the claims touch); the haversine distance,
which needs trigonometry, lives in `ℝ`.
-/

namespace FuelRoute

/-- A coordinate as used throughout the source: a (longitude, latitude) pair. -/
abbrev Coord := ℚ × ℚ

/-- Python's `round` ties-to-even on the integers, embedded on `ℚ`:
`roundHalfEven q` is the integer nearest to `q`, ties going to the even one. -/
def roundHalfEven (q : ℚ) : ℤ :=
  let f := ⌊q⌋
  let r := q - f
  if r < 1/2 then f
  else if 1/2 < r then f + 1
  else if f % 2 = 0 then f else f + 1

/-- Python's `round(x, 2)` on exact rationals. -/
def round2 (q : ℚ) : ℚ := (roundHalfEven (q * 100) : ℚ) / 100

/-- `views.py` constant `VEHICLE_RANGE = 500` (miles). -/
def VEHICLE_RANGE : ℚ := 500

/-- `views.py` constant `FUEL_EFFICIENCY = 10` (miles per gallon). -/
def FUEL_EFFICIENCY : ℚ := 10

/-- A fuel station row as loaded by `load_fuel_stations` in `utils.py`:
name, address, city, two-letter state code, retail price. -/
structure Station where
  name : String
  address : String
  city : String
  state : String
  price : ℚ
deriving DecidableEq, Repr

/-- A fuel stop record as built in the `fuel_stops.append({...})` of
`calculate_route` in `views.py`. -/
structure FuelStop where
  stop_number : ℕ
  station_name : String
  address : String
  city : String
  state : String
  price_per_gallon : ℚ
  distance_from_start : ℚ
deriving DecidableEq, Repr

/-- Python's `range(start, stop, step)` for a positive `step`, as the list of
its elements.  (`views.py` only calls it with `step ≥ 1`.) -/
def pyRange (start stop step : ℕ) : List ℕ :=
  (List.range ((stop - start + step - 1) / step)).map (fun k => start + k * step)

/-- `simplify_geometry` from `views.py`: keep the input when it already has at
most `max_points` points; otherwise keep the first point, every `step`-th index
from `step` up to (excluding) `len - 1` where `step = len // (max_points - 2)`,
and the last point.  (The only caller passes `max_points = 30`, so
`max_points - 2` is nonzero and every sampled index is in range.) -/
def simplify_geometry {α : Type} (coordinates : List α) (max_points : ℕ) : List α :=
  if coordinates.length ≤ max_points then coordinates
  else
    let step := coordinates.length / (max_points - 2)
    coordinates.take 1
      ++ (pyRange step (coordinates.length - 1) step).filterMap (fun i => coordinates.get? i)
      ++ coordinates.getLast?.toList

/-- Errors `geocode_location` in `utils.py` can raise (besides provider
network failures, which propagate out of it unchanged). -/
inductive GeoError where
  | notFound
  | outOfRegion
deriving DecidableEq, Repr

/-- Python's `str.lower()` (character-wise, as all inputs here are ASCII). -/
def py_lower (s : String) : String := ⟨s.data.map Char.toLower⟩

/-- Python's `str.upper()` (character-wise, as all inputs here are ASCII). -/
def py_upper (s : String) : String := ⟨s.data.map Char.toUpper⟩

/-- Python's `str.strip()`: drop leading and trailing whitespace. -/
def py_strip (s : String) : String :=
  ⟨((s.data.dropWhile Char.isWhitespace).reverse.dropWhile Char.isWhitespace).reverse⟩

/-- Splitting a character list at every comma; always returns at least one
(possibly empty) group, like Python's `str.split(',')`. -/
def split_comma : List Char → List (List Char)
  | [] => [[]]
  | c :: rest =>
    let r := split_comma rest
    if c = ',' then [] :: r
    else
      match r with
      | g :: gs => (c :: g) :: gs
      | [] => [[c]]

/-- Python's `str.split(',')`. -/
def py_split_comma (s : String) : List String := (split_comma s.data).map (fun l => ⟨l⟩)

/-- The cache key of `geocode_location`: `location_str.lower().strip()`. -/
def normalize_key (s : String) : String := py_strip (py_lower s)

/-- The USA-boundary check of `geocode_location`:
`is_contiguous_usa or is_alaska` on the candidate `(lon, lat)`. -/
def usa_boundary_ok (lon lat : ℚ) : Bool :=
  (decide (-125 ≤ lon) && decide (lon ≤ -66) && decide (24 ≤ lat) && decide (lat ≤ 49))
  || (decide (-180 ≤ lon) && decide (lon ≤ -130) && decide (51 ≤ lat) && decide (lat ≤ 71))

/-- `geocode_location` from `utils.py`.  The geocoding provider is an explicit
argument (`none` = empty result list, i.e. the `Location not found` branch) and
the module-level `GEOCODING_CACHE` is threaded as an association list from
normalized key to coordinate.  Returns the result, the cache after the call,
and the number of provider requests issued (0 on a cache hit, 1 otherwise). -/
def geocode_location (provider : String → Option Coord)
    (cache : List (String × Coord)) (location_str : String) :
    (Except GeoError Coord) × List (String × Coord) × ℕ :=
  let key := normalize_key location_str
  match cache.lookup key with
  | some coords => (Except.ok coords, cache, 0)
  | none =>
    match provider location_str with
    | none => (Except.error GeoError.notFound, cache, 1)
    | some (lon, lat) =>
      if usa_boundary_ok lon lat then
        (Except.ok (lon, lat), (key, (lon, lat)) :: cache, 1)
      else
        (Except.error GeoError.outOfRegion, cache, 1)

/-- `calculate_haversine_distance` from `utils.py`: great-circle distance in
miles between two (longitude, latitude) pairs, Earth radius 3958.8 miles. -/
noncomputable def calculate_haversine_distance (coord1 coord2 : Coord) : ℝ :=
  let R : ℝ := 3958.8
  let lat1_rad : ℝ := (coord1.2 : ℝ) * Real.pi / 180
  let lat2_rad : ℝ := (coord2.2 : ℝ) * Real.pi / 180
  let delta_lat : ℝ := ((coord2.2 : ℝ) - (coord1.2 : ℝ)) * Real.pi / 180
  let delta_lon : ℝ := ((coord2.1 : ℝ) - (coord1.1 : ℝ)) * Real.pi / 180
  let a := Real.sin (delta_lat/2) ^ 2
    + Real.cos lat1_rad * Real.cos lat2_rad * Real.sin (delta_lon/2) ^ 2
  let c := 2 * Real.arcsin (Real.sqrt a)
  R * c

/-- One route of an OSRM response body: `distance` in meters and the
`geometry.coordinates` polyline. -/
structure OsrmRoute where
  distance : ℚ
  geometry : List Coord

/-- Outcome of the OSRM request in `get_route`: `failure` is any exception in
the `try` block (network error, timeout, HTTP error status via
`raise_for_status`, malformed body); `success code routes` is a parsed
response body with its `code` field and `routes` list. -/
inductive ProviderOutcome where
  | failure
  | success (code : String) (routes : List OsrmRoute)

/-- Route and distance as returned by `get_route`. -/
structure RouteInfo where
  distance : ℝ
  geometry : List Coord

/-- `get_route` from `utils.py` with the provider outcome explicit.  On an
exception it falls back to haversine × 1.3 with the 2-point geometry; on a
parsed response it returns the first route only when `code == 'Ok'` and the
route list is non-empty — otherwise the Python function falls off the end of
its body and implicitly returns `None`. -/
noncomputable def get_route (start_coords end_coords : Coord)
    (outcome : ProviderOutcome) : Option RouteInfo :=
  match outcome with
  | ProviderOutcome.success code routes =>
    if code = "Ok" then
      match routes with
      | route :: _ =>
        some { distance := (route.distance : ℝ) * 0.000621371
               geometry := route.geometry }
      | [] => none
    else none
  | ProviderOutcome.failure =>
    some { distance := calculate_haversine_distance start_coords end_coords * 1.3
           geometry := [start_coords, end_coords] }

/-- The hardcoded adjacency table `get_neighboring_states` from `utils.py`. -/
def get_neighboring_states (state : String) : List String :=
  match state with
  | "CA" => ["NV", "AZ", "OR"]
  | "TX" => ["NM", "OK", "AR", "LA"]
  | "FL" => ["GA", "AL"]
  | "NY" => ["PA", "NJ", "CT", "MA", "VT"]
  | "CO" => ["NM", "KS", "NE", "WY", "UT"]
  | "WA" => ["OR", "ID"]
  | "IL" => ["WI", "IN", "IA", "MO", "KY"]
  | "OH" => ["PA", "MI", "IN", "KY", "WV"]
  | "GA" => ["FL", "AL", "SC", "NC", "TN"]
  | "NC" => ["SC", "GA", "TN", "VA"]
  | "VA" => ["NC", "WV", "MD", "DC", "TN", "KY"]
  | "PA" => ["NY", "NJ", "DE", "MD", "WV", "OH"]
  | "AZ" => ["CA", "NV", "UT", "NM"]
  | "NV" => ["CA", "OR", "ID", "UT", "AZ"]
  | "OR" => ["WA", "ID", "NV", "CA"]
  | "NM" => ["AZ", "CO", "OK", "TX"]
  | "OK" => ["TX", "NM", "CO", "KS", "MO", "AR"]
  | "LA" => ["TX", "AR", "MS"]
  | "MI" => ["OH", "IN", "WI"]
  | "WI" => ["MI", "IL", "IA", "MN"]
  | "MN" => ["WI", "IA", "SD", "ND"]
  | "MO" => ["IA", "IL", "KY", "TN", "AR", "OK", "KS", "NE"]
  | "UT" => ["NV", "AZ", "CO", "WY", "ID"]
  | "KS" => ["CO", "NE", "MO", "OK"]
  | "NE" => ["WY", "SD", "IA", "MO", "KS", "CO"]
  | "IA" => ["MN", "WI", "IL", "MO", "NE", "SD"]
  | "TN" => ["KY", "VA", "NC", "GA", "AL", "MS", "AR", "MO"]
  | "AL" => ["TN", "GA", "FL", "MS"]
  | "MS" => ["TN", "AL", "LA", "AR"]
  | "AR" => ["MO", "TN", "MS", "LA", "TX", "OK"]
  | "SC" => ["NC", "GA"]
  | "KY" => ["OH", "WV", "VA", "TN", "MO", "IL", "IN"]
  | "IN" => ["MI", "OH", "KY", "IL"]
  | "WV" => ["OH", "PA", "MD", "VA", "KY"]
  | _ => []

/-- State extraction for one location text inside `find_stations_near_route`:
skip falsy (empty) strings; split the stripped text on commas; when there are
at least two parts take the last one, stripped and uppercased, and keep it
only when it has exactly two characters. -/
def extract_route_state (location : String) : Option String :=
  if location = "" then none
  else
    let parts := py_split_comma (py_strip location)
    if 2 ≤ parts.length then
      let state := py_upper (py_strip (parts.getLastD ""))
      if state.data.length = 2 then some state else none
    else none

/-- The expanded state set built by `find_stations_near_route`: the states
extracted from the two location texts together with all their neighbors
(a list standing for the Python set — only membership and emptiness are
consumed downstream). -/
def expanded_route_states (start_location end_location : String) : List String :=
  let route_states := [start_location, end_location].filterMap extract_route_state
  route_states ++ (route_states.map get_neighboring_states).flatten

/-- `find_stations_near_route` from `utils.py`.  The `route_geometry`
argument is accepted and never read, exactly as in the source. -/
def find_stations_near_route (route_geometry : List Coord)
    (fuel_stations : List Station)
    (start_location : String) (end_location : String) : List Station :=
  let expanded_states := expanded_route_states start_location end_location
  if expanded_states.isEmpty then fuel_stations
  else
    let nearby_stations := fuel_stations.filter (fun s => expanded_states.contains s.state)
    if nearby_stations.isEmpty then fuel_stations else nearby_stations

/-- Default station for out-of-range indexing in the embedding; every index
the planner uses is in range, so it is never produced. -/
def default_station : Station := { name := "", address := "", city := "", state := "", price := 0 }

/-- `sorted(nearby_stations, key=lambda x: x['price'])` in `calculate_route`:
a stable sort ascending by price (Python's `sorted` is stable; so is
`List.insertionSort`, which therefore produces the identical list). -/
def sorted_by_price (stations : List Station) : List Station :=
  List.insertionSort (fun a b => a.price ≤ b.price) stations

/-- `num_stops` in `calculate_route`: `ceil(total_distance / VEHICLE_RANGE) - 1`,
overridden to 0 when `total_distance <= VEHICLE_RANGE`. -/
def num_fuel_stops (total_distance : ℚ) : ℤ :=
  let n := ⌈total_distance / VEHICLE_RANGE⌉ - 1
  if total_distance ≤ VEHICLE_RANGE then 0 else n

/-- The `fuel_stops` loop of `calculate_route`: runs only when
`num_stops > 0 and sorted_stations`; stop `i` (1-based, here `i = j + 1`)
is at distance `i * VEHICLE_RANGE` and uses station
`sorted_stations[(i - 1) % len(sorted_stations)]`, its price rounded to two
decimals. -/
def fuel_stops_for (num_stops : ℤ) (sorted_stations : List Station) : List FuelStop :=
  if 0 < num_stops ∧ sorted_stations ≠ [] then
    (List.range num_stops.toNat).map (fun j =>
      let station := sorted_stations.getD (j % sorted_stations.length) default_station
      { stop_number := j + 1
        station_name := station.name
        address := station.address
        city := station.city
        state := station.state
        price_per_gallon := round2 station.price
        distance_from_start := ((j : ℚ) + 1) * VEHICLE_RANGE })
  else []

/-- The fuel summary assembled by `calculate_route`. -/
structure PlanResult where
  fuel_stops : List FuelStop
  total_gallons : ℚ
  average_price_per_gallon : ℚ
  total_fuel_cost : ℚ
deriving DecidableEq, Repr

/-- The planning tail of `calculate_route` in `views.py`, from the price sort
through the fuel summary, for a given total distance and corridor-filtered
station pool.  The codomain is `Except` because the surrounding `try` block
converts any raised exception into a server error — but this segment of the
source raises none, so the result is always `Except.ok`: the zero-stop
average divides the sum of the up-to-10 cheapest prices by the constant 10
(an empty pool therefore yields average 0, not an error). -/
def plan_fuel_route (total_distance : ℚ) (nearby_stations : List Station) :
    Except String PlanResult :=
  let sorted_stations := sorted_by_price nearby_stations
  let num_stops := num_fuel_stops total_distance
  let stops := fuel_stops_for num_stops sorted_stations
  let total_gallons := total_distance / FUEL_EFFICIENCY
  let avg_price :=
    if stops = [] then ((sorted_stations.take 10).map Station.price).sum / 10
    else (stops.map FuelStop.price_per_gallon).sum / (stops.length : ℚ)
  Except.ok
    { fuel_stops := stops
      total_gallons := total_gallons
      average_price_per_gallon := avg_price
      total_fuel_cost := round2 (total_gallons * avg_price) }

/-- The average price a `plan_fuel_route` outcome carries (0 on an error,
which `plan_fuel_route` never returns). -/
def plan_avg (r : Except String PlanResult) : ℚ :=
  match r with
  | Except.ok p => p.average_price_per_gallon
  | Except.error _ => 0

instance : IsTotal Station (fun a b => a.price ≤ b.price) :=
  ⟨fun a b => le_total a.price b.price⟩

instance : IsTrans Station (fun a b => a.price ≤ b.price) :=
  ⟨fun _ _ _ h₁ h₂ => le_trans h₁ h₂⟩

/-- Helper: on a non-empty input the simplifier keeps the input's first
element first and its last element last. -/
theorem simplify_geometry_head_getLast {α : Type} (coordinates : List α)
    (h : coordinates ≠ []) (max_points : ℕ) :
    (simplify_geometry coordinates max_points).head? = coordinates.head? ∧
    (simplify_geometry coordinates max_points).getLast? = coordinates.getLast? := by
  unfold simplify_geometry
  by_cases hlen : coordinates.length ≤ max_points
  · simp [hlen]
  · obtain ⟨a, t, rfl⟩ := List.exists_cons_of_ne_nil h
    simp only [hlen, if_false, if_neg hlen]
    constructor
    · simp [List.take]
    · rw [List.getLast?_eq_getLast _ h, Option.toList_some]
      exact List.getLast?_concat _

set_option maxRecDepth 100000 in
/-- C1 (counterexample): for a concrete 300-point input and `maxPoints = 30`
the simplifier's output has 31 points, so its length is not at most 30. -/
theorem claim_C1_counterexample :
    ¬ (simplify_geometry (List.replicate 300 ((0 : ℚ), (0 : ℚ))) 30).length ≤ 30 := by
  decide

set_option maxRecDepth 100000 in
/-- C1 (amended): for every non-empty input list of coordinates and
`maxPoints = 30`, the output of the geometry simplifier begins with the
input's first element and ends with the input's last element; the length
bound, however, can be exceeded by one: for an input of 300 points the
output length is exactly 31 (at most `maxPoints + 1`, not `maxPoints`). -/
theorem claim_C1_amended :
    (∀ coordinates : List (ℚ × ℚ), coordinates ≠ [] →
      (simplify_geometry coordinates 30).head? = coordinates.head? ∧
      (simplify_geometry coordinates 30).getLast? = coordinates.getLast?) ∧
    (simplify_geometry (List.replicate 300 ((0 : ℚ), (0 : ℚ))) 30).length = 31 := by
  constructor
  · intro coordinates h
    exact simplify_geometry_head_getLast coordinates h 30
  · decide

/-- C1 (witness): the amended statement applied at a concrete 2-point input. -/
theorem claim_C1_witness :
    ([((1 : ℚ), (2 : ℚ)), ((3 : ℚ), (4 : ℚ))] ≠ ([] : List (ℚ × ℚ))) ∧
    (simplify_geometry [((1 : ℚ), (2 : ℚ)), ((3 : ℚ), (4 : ℚ))] 30).head? = some ((1 : ℚ), (2 : ℚ)) ∧
    (simplify_geometry [((1 : ℚ), (2 : ℚ)), ((3 : ℚ), (4 : ℚ))] 30).getLast? = some ((3 : ℚ), (4 : ℚ)) := by
  refine ⟨by decide, ?_, ?_⟩
  · exact (claim_C1_amended.1 _ (by decide)).1.trans (by decide)
  · exact (claim_C1_amended.1 _ (by decide)).2.trans (by decide)

/-- C6: for every non-negative total distance, the number of required fuel
stops is `ceil(totalDistance / 500) - 1` when the distance exceeds the
500-mile vehicle range and 0 otherwise; in particular 450 miles needs 0
stops, 1200 miles needs 2, and exactly 500 miles needs 0. -/
theorem claim_C6_stop_count (d : ℚ) (hd : 0 ≤ d) :
    ((d ≤ 500 → num_fuel_stops d = 0) ∧
     (500 < d → num_fuel_stops d = ⌈d / 500⌉ - 1)) ∧
    num_fuel_stops 450 = 0 ∧ num_fuel_stops 1200 = 2 ∧ num_fuel_stops 500 = 0 := by
  refine ⟨⟨fun h => ?_, fun h => ?_⟩, ?_, ?_, ?_⟩
  · simp [num_fuel_stops, VEHICLE_RANGE, h]
  · simp [num_fuel_stops, VEHICLE_RANGE, not_le.mpr h]
  · simp only [num_fuel_stops, VEHICLE_RANGE]
    norm_num
  · have hc : ⌈(1200 : ℚ) / 500⌉ = 3 := by
      rw [Int.ceil_eq_iff]
      constructor <;> norm_num
    simp only [num_fuel_stops, VEHICLE_RANGE, hc]
    norm_num
  · simp [num_fuel_stops, VEHICLE_RANGE]

/-- C6 (witness): the stop-count characterization applied at distance 1200. -/
theorem claim_C6_witness :
    (0 : ℚ) ≤ 1200 ∧ num_fuel_stops 1200 = ⌈(1200 : ℚ) / 500⌉ - 1 := by
  exact ⟨by decide, (claim_C6_stop_count 1200 (by decide)).1.2 (by decide)⟩

/-- C10: the corridor filter's output is completely independent of the route
geometry argument — any two geometries (the empty list included) give
identical results for the same stations and location texts. -/
theorem claim_C10_geometry_independence
    (g₁ g₂ : List Coord) (stations : List Station) (s e : String) :
    find_stations_near_route g₁ stations s e = find_stations_near_route g₂ stations s e := rfl

/-- C3 (code-bug evidence): on a provider exception (network error, timeout,
HTTP error status) `get_route` does return the haversine × 1.3 fallback with
the degenerate 2-point geometry — but on a successfully parsed provider
response whose status code is not `Ok` (here `NoRoute` with no routes) it
returns `none` (the Python function falls off the end of its body), not the
fallback `RouteInfo` the claim requires: the caller then crashes subscripting
`None` and the request fails outward as a server error. -/
theorem claim_C3_nonok_response (start_coords end_coords : Coord) :
    get_route start_coords end_coords ProviderOutcome.failure =
      some { distance := calculate_haversine_distance start_coords end_coords * 1.3
             geometry := [start_coords, end_coords] } ∧
    get_route start_coords end_coords (ProviderOutcome.success "NoRoute" []) = none := by
  exact ⟨rfl, rfl⟩

/-- C8: region validation passes exactly on the contiguous-USA box
(longitude in [-125, -66], latitude in [24, 49]) or the Alaska box
(longitude in [-180, -130], latitude in [51, 71]); and for a cache miss whose
provider candidate is `(lon, lat)`, `geocode_location` fails with the
out-of-region error exactly when the candidate lies in neither box. -/
theorem claim_C8_region_validation
    (provider : String → Option Coord) (cache : List (String × Coord))
    (loc : String) (lon lat : ℚ)
    (hmiss : cache.lookup (normalize_key loc) = none)
    (hprov : provider loc = some (lon, lat)) :
    (usa_boundary_ok lon lat = true ↔
      (((-125 ≤ lon ∧ lon ≤ -66) ∧ (24 ≤ lat ∧ lat ≤ 49)) ∨
       ((-180 ≤ lon ∧ lon ≤ -130) ∧ (51 ≤ lat ∧ lat ≤ 71)))) ∧
    ((geocode_location provider cache loc).1 = Except.error GeoError.outOfRegion ↔
      ¬ (((-125 ≤ lon ∧ lon ≤ -66) ∧ (24 ≤ lat ∧ lat ≤ 49)) ∨
         ((-180 ≤ lon ∧ lon ≤ -130) ∧ (51 ≤ lat ∧ lat ≤ 71)))) := by
  have hbox : usa_boundary_ok lon lat = true ↔
      (((-125 ≤ lon ∧ lon ≤ -66) ∧ (24 ≤ lat ∧ lat ≤ 49)) ∨
       ((-180 ≤ lon ∧ lon ≤ -130) ∧ (51 ≤ lat ∧ lat ≤ 71))) := by
    simp only [usa_boundary_ok, Bool.or_eq_true, Bool.and_eq_true, decide_eq_true_eq]
    tauto
  refine ⟨hbox, ?_⟩
  cases hv : usa_boundary_ok lon lat with
  | true =>
    have hb := hbox.mp hv
    simp [geocode_location, hmiss, hprov, hv, hb]
  | false =>
    have hb : ¬ (((-125 ≤ lon ∧ lon ≤ -66) ∧ (24 ≤ lat ∧ lat ≤ 49)) ∨
        ((-180 ≤ lon ∧ lon ≤ -130) ∧ (51 ≤ lat ∧ lat ≤ 71))) := by
      intro h
      rw [hbox.mpr h] at hv
      exact absurd hv (by simp)
    simp [geocode_location, hmiss, hprov, hv, hb]

/-- C8 (witness): (-70, 40) validates; a provider candidate (10, 10) makes
`geocode_location` fail with the out-of-region error. -/
theorem claim_C8_witness :
    usa_boundary_ok (-70) 40 = true ∧
    (geocode_location (fun _ => some ((10 : ℚ), (10 : ℚ))) [] "Somewhere").1 =
      Except.error GeoError.outOfRegion := by
  constructor
  · exact (claim_C8_region_validation (fun _ => some ((-70 : ℚ), (40 : ℚ))) [] "Boston, MA"
      (-70) 40 rfl rfl).1.mpr (Or.inl (by decide))
  · exact (claim_C8_region_validation (fun _ => some ((10 : ℚ), (10 : ℚ))) [] "Somewhere"
      10 10 rfl rfl).2.mpr (by decide)

/-- C9: after one successful `geocode_location` call, a second call with any
text normalizing (lowercase, trim) to the same cache key returns the identical
coordinate, issues no provider request, and leaves the cache untouched. -/
theorem claim_C9_cache_idempotent
    (provider : String → Option Coord) (cache cache' : List (String × Coord))
    (t t' : String) (c : Coord) (n : ℕ)
    (hkey : normalize_key t' = normalize_key t)
    (hfirst : geocode_location provider cache t = (Except.ok c, cache', n)) :
    geocode_location provider cache' t' = (Except.ok c, cache', 0) := by
  unfold geocode_location at hfirst ⊢
  rw [hkey]
  cases hl : cache.lookup (normalize_key t) with
  | some v =>
    simp only [hl] at hfirst
    simp only [Prod.mk.injEq] at hfirst
    obtain ⟨he, hc, -⟩ := hfirst
    have hvc := Except.ok.inj he
    subst hvc
    subst hc
    simp [hl]
  | none =>
    simp only [hl] at hfirst
    cases hp : provider t with
    | none =>
      simp only [hp, Prod.mk.injEq] at hfirst
      exact absurd hfirst.1 (by simp)
    | some p =>
      obtain ⟨lon, lat⟩ := p
      simp only [hp] at hfirst
      by_cases hv : usa_boundary_ok lon lat
      · rw [if_pos hv] at hfirst
        simp only [Prod.mk.injEq] at hfirst
        obtain ⟨he, hc, -⟩ := hfirst
        have hvc := Except.ok.inj he
        subst hc
        simp [List.lookup, hvc]
      · rw [if_neg hv] at hfirst
        simp only [Prod.mk.injEq] at hfirst
        exact absurd hfirst.1 (by simp)

/-- C9 (witness): a concrete first successful resolve of "Boston, MA"
followed by a second resolve of the differently formatted "  Boston, MA ":
same coordinate, unchanged cache, zero provider calls. -/
theorem claim_C9_witness :
    geocode_location (fun _ => some ((-70 : ℚ), (40 : ℚ)))
        [("boston, ma", ((-70 : ℚ), (40 : ℚ)))] "  Boston, MA " =
      (Except.ok ((-70 : ℚ), (40 : ℚ)), [("boston, ma", ((-70 : ℚ), (40 : ℚ)))], 0) := by
  exact claim_C9_cache_idempotent (fun _ => some ((-70 : ℚ), (40 : ℚ))) []
    [("boston, ma", ((-70 : ℚ), (40 : ℚ)))] "Boston, MA" "  Boston, MA "
    ((-70 : ℚ), (40 : ℚ)) 1 rfl rfl

/-- C7: for a non-empty station pool, the corridor filter returns a non-empty
subset of the pool: exactly the stations in the expanded (extracted plus
adjacent) state set when that set is non-empty and matches some station, and
the full pool otherwise. -/
theorem claim_C7_corridor_filter
    (route_geometry : List Coord) (fuel_stations : List Station)
    (start_location end_location : String)
    (hne : fuel_stations ≠ []) :
    find_stations_near_route route_geometry fuel_stations start_location end_location ≠ [] ∧
    find_stations_near_route route_geometry fuel_stations start_location end_location ⊆
      fuel_stations ∧
    (expanded_route_states start_location end_location ≠ [] →
      fuel_stations.filter
          (fun s => (expanded_route_states start_location end_location).contains s.state) ≠ [] →
      find_stations_near_route route_geometry fuel_stations start_location end_location =
        fuel_stations.filter
          (fun s => (expanded_route_states start_location end_location).contains s.state)) ∧
    ((expanded_route_states start_location end_location = [] ∨
      fuel_stations.filter
          (fun s => (expanded_route_states start_location end_location).contains s.state) = []) →
      find_stations_near_route route_geometry fuel_stations start_location end_location =
        fuel_stations) := by
  unfold find_stations_near_route
  by_cases hE : (expanded_route_states start_location end_location).isEmpty
  · have hE' : expanded_route_states start_location end_location = [] :=
      List.isEmpty_iff.mp hE
    simp only [hE, if_true]
    exact ⟨hne, fun x hx => hx, fun h _ => absurd hE' h, fun _ => trivial⟩
  · have hE' : expanded_route_states start_location end_location ≠ [] := by
      intro h
      exact absurd (List.isEmpty_iff.mpr h) hE
    simp only [hE, if_false, Bool.false_eq_true]
    by_cases hN : (fuel_stations.filter
        (fun s => (expanded_route_states start_location end_location).contains s.state)).isEmpty
    · simp only [hN, if_true]
      refine ⟨hne, fun x hx => hx, fun _ hf => absurd (List.isEmpty_iff.mp hN) hf, fun _ => trivial⟩
    · have hN' : fuel_stations.filter
          (fun s => (expanded_route_states start_location end_location).contains s.state) ≠ [] :=
        fun h => absurd (List.isEmpty_iff.mpr h) hN
      simp only [hN, if_false, Bool.false_eq_true]
      refine ⟨hN', fun x hx => List.mem_of_mem_filter hx, fun _ _ => trivial, ?_⟩
      intro h
      cases h with
      | inl h => exact absurd h hE'
      | inr h => exact absurd h hN'

/-- C7 (witness): a Texas-only pool with a California-corridor request — the
expanded states match no station, so the filter returns the full pool. -/
theorem claim_C7_witness :
    ([⟨"S", "A", "Dallas", "TX", 3⟩] : List Station) ≠ [] ∧
    find_stations_near_route [] [⟨"S", "A", "Dallas", "TX", 3⟩] "Los Angeles, CA" "" =
      [⟨"S", "A", "Dallas", "TX", 3⟩] := by
  refine ⟨by decide, ?_⟩
  exact (claim_C7_corridor_filter [] [⟨"S", "A", "Dallas", "TX", 3⟩] "Los Angeles, CA" ""
    (by decide)).2.2.2 (Or.inr (by decide))

/-- C5: the candidate pool is sorted ascending by price (stably, so ties keep
their original relative order) and for every required stop index `i` from 1
to the required count, stop `i` sits at distance `i * 500` from the start and
uses station `sortedStations[(i - 1) mod n]`. -/
theorem claim_C5_stop_placement
    (stations : List Station) (count : ℤ) (i : ℕ)
    (hne : stations ≠ []) (h1 : 1 ≤ i) (hc : (i : ℤ) ≤ count) :
    List.Sorted (fun a b : Station => a.price ≤ b.price) (sorted_by_price stations) ∧
    (sorted_by_price stations).Perm stations ∧
    (fuel_stops_for count (sorted_by_price stations)).get? (i - 1) =
      some { stop_number := i
             station_name := ((sorted_by_price stations).getD
               ((i - 1) % (sorted_by_price stations).length) default_station).name
             address := ((sorted_by_price stations).getD
               ((i - 1) % (sorted_by_price stations).length) default_station).address
             city := ((sorted_by_price stations).getD
               ((i - 1) % (sorted_by_price stations).length) default_station).city
             state := ((sorted_by_price stations).getD
               ((i - 1) % (sorted_by_price stations).length) default_station).state
             price_per_gallon := round2 ((sorted_by_price stations).getD
               ((i - 1) % (sorted_by_price stations).length) default_station).price
             distance_from_start := (i : ℚ) * VEHICLE_RANGE } := by
  have hperm : (sorted_by_price stations).Perm stations :=
    List.perm_insertionSort _ _
  have hsorted : List.Sorted (fun a b : Station => a.price ≤ b.price)
      (sorted_by_price stations) := List.sorted_insertionSort _ _
  have hslen : sorted_by_price stations ≠ [] := by
    intro h
    have hz : stations.length = 0 := by rw [← hperm.length_eq, h]; rfl
    exact hne (List.eq_nil_of_length_eq_zero hz)
  have hcount : 0 < count := lt_of_lt_of_le (by exact_mod_cast h1) hc
  refine ⟨hsorted, hperm, ?_⟩
  unfold fuel_stops_for
  rw [if_pos ⟨hcount, hslen⟩]
  have hidx : i - 1 < count.toNat := by omega
  simp only [List.get?_eq_getElem?, List.getElem?_map, List.getElem?_range, hidx, if_pos,
    Option.map_some]
  have hi1 : i - 1 + 1 = i := Nat.sub_add_cancel h1
  have hiq : ((i - 1 : ℕ) : ℚ) + 1 = (i : ℚ) := by
    exact_mod_cast congrArg (fun n : ℕ => (n : ℚ)) hi1
  simp [hi1, hiq]

set_option maxRecDepth 100000 in
/-- C5 (witness): with a single available station and 3 required stops, all
three stops reference that station, at distances 500, 1000 and 1500. -/
theorem claim_C5_witness :
    (([⟨"S", "A", "C", "TX", 3⟩] : List Station) ≠ [] ∧ 1 ≤ 3 ∧ (3 : ℤ) ≤ 3) ∧
    (fuel_stops_for 3 (sorted_by_price [⟨"S", "A", "C", "TX", 3⟩])).get? 0 =
      some ⟨1, "S", "A", "C", "TX", 3, 500⟩ ∧
    (fuel_stops_for 3 (sorted_by_price [⟨"S", "A", "C", "TX", 3⟩])).get? 1 =
      some ⟨2, "S", "A", "C", "TX", 3, 1000⟩ ∧
    (fuel_stops_for 3 (sorted_by_price [⟨"S", "A", "C", "TX", 3⟩])).get? 2 =
      some ⟨3, "S", "A", "C", "TX", 3, 1500⟩ := by
  refine ⟨⟨by decide, by decide, by decide⟩, ?_, ?_, ?_⟩
  · exact (claim_C5_stop_placement [⟨"S", "A", "C", "TX", 3⟩] 3 1
      (by decide) (by decide) (by decide)).2.2.trans (by with_unfolding_all decide)
  · exact (claim_C5_stop_placement [⟨"S", "A", "C", "TX", 3⟩] 3 2
      (by decide) (by decide) (by decide)).2.2.trans (by with_unfolding_all decide)
  · exact (claim_C5_stop_placement [⟨"S", "A", "C", "TX", 3⟩] 3 3
      (by decide) (by decide) (by decide)).2.2.trans (by with_unfolding_all decide)

/-- C2 (counterexample): with an empty candidate pool and a 1200-mile trip
(2 stops required), the planner does not fail with any error — it returns a
successful plan with zero fuel stops, average price 0 and total cost 0. -/
theorem claim_C2_counterexample :
    plan_fuel_route 1200 [] =
      Except.ok { fuel_stops := []
                  total_gallons := 120
                  average_price_per_gallon := 0
                  total_fuel_cost := 0 } := by
  with_unfolding_all rfl

/-- C2 (amended): for every total distance beyond the vehicle range (stops
required), an empty candidate pool does not make the stop planner fail —
no `NoStationsAvailable` error exists in the code; the planner instead
produces a successful response with zero fuel stops and average price 0. -/
theorem claim_C2_amended (d : ℚ) (hd : 500 < d) :
    plan_fuel_route d [] =
      Except.ok { fuel_stops := []
                  total_gallons := d / 10
                  average_price_per_gallon := 0
                  total_fuel_cost := 0 } := by
  simp only [plan_fuel_route, sorted_by_price, List.insertionSort, fuel_stops_for,
    FUEL_EFFICIENCY]
  norm_num
  simp [round2, roundHalfEven]

/-- C2 (witness): the amended statement applied at distance 1200. -/
theorem claim_C2_witness :
    (500 : ℚ) < 1200 ∧
    plan_fuel_route 1200 [] =
      Except.ok { fuel_stops := []
                  total_gallons := (1200 : ℚ) / 10
                  average_price_per_gallon := 0
                  total_fuel_cost := 0 } :=
  ⟨by decide, claim_C2_amended 1200 (by decide)⟩

/-- C4 (counterexample): with one available station priced 4 and a 400-mile
trip (zero stops needed), the average price the code uses is 4/10 = 0.4 —
not the arithmetic mean (4) of the fewer-than-10 available stations. -/
theorem claim_C4_counterexample :
    plan_avg (plan_fuel_route 400 [⟨"A Stop", "1 St", "Austin", "TX", 4⟩]) = 2/5 ∧
    (2/5 : ℚ) ≠
      ([(⟨"A Stop", "1 St", "Austin", "TX", 4⟩ : Station)].map Station.price).sum /
        (([(⟨"A Stop", "1 St", "Austin", "TX", 4⟩ : Station)] : List Station).length : ℚ) := by
  constructor
  · with_unfolding_all decide
  · with_unfolding_all decide

/-- C4 (amended): when stops were produced, the average price is the
arithmetic mean of the per-stop (rounded) prices actually chosen; when no
stops were produced, it is the sum of the prices of the up-to-10 cheapest
stations divided by the constant 10 — which equals the mean of the 10
cheapest only when at least 10 stations exist, understates it when fewer
exist, and is 0 for an empty pool (no division by zero occurs, the divisor
being the constant 10). -/
theorem claim_C4_amended (d : ℚ) (stations : List Station) :
    (fuel_stops_for (num_fuel_stops d) (sorted_by_price stations) ≠ [] →
      plan_avg (plan_fuel_route d stations) =
        ((fuel_stops_for (num_fuel_stops d) (sorted_by_price stations)).map
            FuelStop.price_per_gallon).sum /
          ((fuel_stops_for (num_fuel_stops d) (sorted_by_price stations)).length : ℚ)) ∧
    (fuel_stops_for (num_fuel_stops d) (sorted_by_price stations) = [] →
      plan_avg (plan_fuel_route d stations) =
        (((sorted_by_price stations).take 10).map Station.price).sum / 10) ∧
    (fuel_stops_for (num_fuel_stops d) (sorted_by_price stations) = [] →
      10 ≤ stations.length →
      plan_avg (plan_fuel_route d stations) =
        (((sorted_by_price stations).take 10).map Station.price).sum /
          ((((sorted_by_price stations).take 10).length : ℚ))) := by
  refine ⟨fun h => ?_, fun h => ?_, fun h hlen => ?_⟩
  · simp only [plan_fuel_route, plan_avg]
    rw [if_neg h]
  · simp only [plan_fuel_route, plan_avg]
    rw [if_pos h]
  · have hlen' : ((sorted_by_price stations).take 10).length = 10 := by
      rw [List.length_take]
      have hp : (sorted_by_price stations).length = stations.length :=
        (List.perm_insertionSort _ _).length_eq
      omega
    simp only [plan_fuel_route, plan_avg]
    rw [if_pos h, hlen']
    norm_num

/-- C4 (witness): the amended statement applied with 10 stations all priced
3 on a 400-mile (zero-stop) trip: the average is the mean of the 10 cheapest,
namely 3. -/
theorem claim_C4_witness :
    fuel_stops_for (num_fuel_stops 400)
        (sorted_by_price (List.replicate 10 (⟨"B", "2", "C", "TX", 3⟩ : Station))) = [] ∧
    10 ≤ (List.replicate 10 (⟨"B", "2", "C", "TX", 3⟩ : Station)).length ∧
    plan_avg (plan_fuel_route 400 (List.replicate 10 (⟨"B", "2", "C", "TX", 3⟩ : Station))) = 3 := by
  refine ⟨by with_unfolding_all decide, by decide, ?_⟩
  have h := (claim_C4_amended 400 (List.replicate 10 (⟨"B", "2", "C", "TX", 3⟩ : Station))).2.2
    (by with_unfolding_all decide) (by decide)
  exact h.trans (by with_unfolding_all decide)

end FuelRoute
